import Mathlib

/-!
# Verification of the YourInfo presence/enrichment server

Shallow embedding of the server-side code of `siinghd/yourinfo`:
the redaction engine, the visitor session handlers and registries
(`src/server/index.ts`), the shared-visitor replicator
(`src/server/shared-visitors.ts`), and the AI-profile enrichment
cache and rate limiter (`src/server/ai-profiler.ts`).

JavaScript numbers carrying coordinates are modelled as rationals
(`Math.round x` becomes `⌊x + 1/2⌋`, its value on all non-exotic
floats); timestamps and counters are `Nat`; JS `Map`s are modelled
as association lists or as functions `String → Option α`; fallible
external effects (Redis, the inference service) are modelled by
their observable outcomes, passed in explicitly.
-/

namespace YourInfo

/-! ## Data model -/

/-- Modelled from the spec: `src/src/types.ts` is not in the corpus.
Geolocation record produced by `getGeolocation` (`src/server/geolocation.ts`
builds exactly these fields); coordinates as rationals. -/
structure GeoLocation where
  lat : ℚ
  lng : ℚ
  city : String
  region : String
  country : String
  countryCode : String
  timezone : String
  isp : String
  org : String
  asOrg : String
  deriving DecidableEq, Repr

/-- Modelled from the spec: `src/src/types.ts` is not in the corpus.
Profile fields the server-side control flow manipulates; the full schema of
`parseAIResponse` is data the server never branches on, so it is represented
by its required head fields plus the `aiGenerated` mark added at
`ai-profiler.ts:651`. -/
structure UserProfile where
  likelyDeveloper : Bool := false
  developerScore : Nat := 0
  aiGenerated : Bool := false
  deriving DecidableEq, Repr

/-- Modelled from the spec: `src/src/types.ts` is not in the corpus.
Device facts from the client. The server reads only `fingerprintId` and
`crossBrowserId` (`index.ts:372`) and otherwise treats the bundle opaquely;
`browserName`/`platform` stand in for the remaining nullable fields and
`profile` is the nullable enrichment result of spec §3. -/
structure ClientInfo where
  fingerprintId : Option String := none
  crossBrowserId : Option String := none
  browserName : Option String := none
  platform : Option String := none
  profile : Option UserProfile := none
  deriving DecidableEq, Repr

/-- Server-observed portion of a visitor record, as built by
`buildServerInfo` (`src/server/index.ts:225-261`). -/
structure ServerInfo where
  ip : String
  geo : Option GeoLocation
  userAgent : String
  acceptLanguage : String
  referer : String
  headers : List (String × String)
  deriving DecidableEq, Repr

/-- A visitor record, as constructed in the websocket `open` handler
(`src/server/index.ts:304-309`). -/
structure VisitorInfo where
  id : String
  server : ServerInfo
  client : Option ClientInfo
  connectedAt : Nat
  deriving DecidableEq, Repr

/-! ## Redaction engine (`src/server/index.ts:168-192`) -/

/-- JavaScript `Math.round`: round half toward positive infinity. -/
def jsRound (q : ℚ) : ℤ := ⌊q + 1/2⌋

/-- The fixed IP placeholder used at `index.ts:173`. -/
def ipMask : String := "•••.•••.•••.•••"

/-- The mask string used for city/isp/org at `index.ts:176-181`. -/
def fieldMask : String := "••••••"

/-- Embedding of `redactVisitorInfo` (`src/server/index.ts:168-185`): mask
`server.ip`, mask `geo.city/isp/org`, round `geo.lat/lng` to whole numbers,
keep everything else. -/
def redactVisitorInfo (visitor : VisitorInfo) : VisitorInfo :=
  { visitor with
    server := { visitor.server with
      ip := ipMask
      geo := match visitor.server.geo with
        | some geo => some { geo with
            city := fieldMask
            lat := (jsRound geo.lat : ℚ)
            lng := (jsRound geo.lng : ℚ)
            isp := fieldMask
            org := fieldMask }
        | none => none } }

/-- Embedding of `redactVisitorsExcept` (`src/server/index.ts:190-192`). -/
def redactVisitorsExcept (allVisitors : List VisitorInfo) (currentId : String) :
    List VisitorInfo :=
  allVisitors.map fun v => if v.id = currentId then v else redactVisitorInfo v

/-! ## Enrichment cache and rate limiter (`src/server/ai-profiler.ts`) -/

/-- Value of `RATE_LIMIT_WINDOW` (`ai-profiler.ts:121`), in milliseconds. -/
def RATE_LIMIT_WINDOW : Nat := 60 * 1000

/-- Value of `RATE_LIMIT_MAX` (`ai-profiler.ts:122`). -/
def RATE_LIMIT_MAX : Nat := 2

/-- One entry of the `userRateLimits` map (`ai-profiler.ts:123`). -/
structure RateLimitEntry where
  count : Nat
  resetTime : Nat
  deriving DecidableEq, Repr

/-- The `userRateLimits` map; `Map.set` is modelled by prepending, so
`List.lookup` finds the newest binding. -/
abbrev RlMap := List (String × RateLimitEntry)

/-- JS `Map.prototype.set` on the rate-limit map. -/
def rlSet (m : RlMap) (k : String) (v : RateLimitEntry) : RlMap := (k, v) :: m

/-- Embedding of `checkRateLimit` (`ai-profiler.ts:135-151`), with the
global map and the clock passed explicitly: returns the admit decision and
the updated map. A missing or expired entry starts a new window at count 1;
a full window (`count ≥ RATE_LIMIT_MAX`) rejects; otherwise the count is
incremented in place (the reset time is kept). -/
def checkRateLimit (now : Nat) (m : RlMap) (userId : String) : Bool × RlMap :=
  match m.lookup userId with
  | none => (true, rlSet m userId ⟨1, now + RATE_LIMIT_WINDOW⟩)
  | some userLimit =>
    if now > userLimit.resetTime then
      (true, rlSet m userId ⟨1, now + RATE_LIMIT_WINDOW⟩)
    else if userLimit.count ≥ RATE_LIMIT_MAX then
      (false, m)
    else
      (true, rlSet m userId ⟨userLimit.count + 1, userLimit.resetTime⟩)

/-- Embedding of `getCacheKey` (`ai-profiler.ts:156-158`). -/
def getCacheKey (fingerprintId crossBrowserId : String) : String :=
  "yourinfo:profile:" ++ fingerprintId ++ ":" ++ crossBrowserId

/-- The profile cache held in Redis, keyed by `getCacheKey`. -/
abbrev CacheMap := List (String × UserProfile)

/-- Observable outcome of the inference round trip (`fetch` at
`ai-profiler.ts:609-630` plus response handling): the network call throwing,
a non-ok HTTP status, a response without `choices[0].message.content`, or a
content string summarised by its `parseAIResponse` result (`none` = parse
failure or schema violation). -/
inductive SvcOutcome where
  | networkError (msg : String)
  | httpError (status : Nat) (body : String)
  | emptyBody
  | content (parsed : Option UserProfile)
  deriving DecidableEq, Repr

/-- A service outcome that is not a successfully parsed profile: a thrown
network error, a non-success HTTP status, an empty response body, or an
unparseable/ill-typed content string. -/
def SvcOutcome.isFailure : SvcOutcome → Bool
  | .content (some _) => false
  | _ => true

/-- Per-call environment of `generateAIProfile`: the `GROK_API_KEY`
configuration, whether the cache Redis client is reachable (`getRedis`
returning a client), the inference outcome and the clock. -/
structure ProfilerEnv where
  grokApiKey : Option String
  storeAvailable : Bool
  svc : SvcOutcome
  now : Nat

/-- Mutable module state of `ai-profiler.ts`: the Redis profile cache and
the in-process rate-limit map. -/
structure ProfilerState where
  cache : CacheMap
  rl : RlMap

/-- Embedding of `getCachedProfile` (`ai-profiler.ts:163-178`): `none` when
the store is unreachable or errors (both caught), otherwise the cache
lookup. -/
def getCachedProfile (env : ProfilerEnv) (cache : CacheMap) (cacheKey : String) :
    Option UserProfile :=
  if env.storeAvailable then cache.lookup cacheKey else none

/-- Embedding of `cacheProfile` (`ai-profiler.ts:183-193`): a no-op when the
store is unreachable, otherwise `setEx` (errors are caught and leave the
cache as is). -/
def cacheProfile (env : ProfilerEnv) (cache : CacheMap) (cacheKey : String)
    (profile : UserProfile) : CacheMap :=
  if env.storeAvailable then (cacheKey, profile) :: cache else cache

/-- The enrichment result `{profile, source, error?}` of `generateAIProfile`
(`ai-profiler.ts:579-583`); `source` keeps the code's literal tags
`"ai" | "cache" | "fallback"`. -/
structure ProfileResult where
  profile : Option UserProfile
  source : String
  error : Option String := none
  deriving DecidableEq, Repr

/-- Body of the `try` block at `ai-profiler.ts:606-656`; `Except.error`
models a thrown exception (the `fetch` network failure), every other
service outcome is handled inside the block. A parsed profile is marked
`aiGenerated`, cached, and returned with source `"ai"`. -/
def grokTryBlock (env : ProfilerEnv) (cache : CacheMap) (cacheKey : String) :
    Except String (ProfileResult × CacheMap) :=
  match env.svc with
  | .networkError msg => .error msg
  | .httpError status _ =>
      .ok ({ profile := none, source := "fallback",
             error := some ("Grok API error: " ++ toString status) }, cache)
  | .emptyBody =>
      .ok ({ profile := none, source := "fallback",
             error := some "Empty AI response" }, cache)
  | .content none =>
      .ok ({ profile := none, source := "fallback",
             error := some "Failed to parse AI response" }, cache)
  | .content (some p) =>
      let p' := { p with aiGenerated := true }
      .ok ({ profile := some p', source := "ai" }, cacheProfile env cache cacheKey p')

/-- Embedding of `generateAIProfile` (`ai-profiler.ts:579-661`): cache
lookup, then the configuration check, then the per-identity rate limit,
then the guarded inference call whose thrown errors are caught into a
fallback result. -/
def generateAIProfile (env : ProfilerEnv) (st : ProfilerState)
    (clientFingerprintId clientCrossBrowserId : Option String) :
    ProfileResult × ProfilerState :=
  let fingerprintId := clientFingerprintId.getD "unknown"
  let crossBrowserId := clientCrossBrowserId.getD "unknown"
  let cacheKey := getCacheKey fingerprintId crossBrowserId
  match getCachedProfile env st.cache cacheKey with
  | some cached => ({ profile := some cached, source := "cache" }, st)
  | none =>
    match env.grokApiKey with
    | none => ({ profile := none, source := "fallback", error := some "AI not configured" }, st)
    | some _ =>
      let userId := fingerprintId ++ ":" ++ crossBrowserId
      let rlResult := checkRateLimit env.now st.rl userId
      if !rlResult.1 then
        ({ profile := none, source := "fallback", error := some "Rate limited" },
          { st with rl := rlResult.2 })
      else
        match grokTryBlock env st.cache cacheKey with
        | .ok (res, cache') => (res, { cache := cache', rl := rlResult.2 })
        | .error e =>
            ({ profile := none, source := "fallback", error := some e },
              { st with rl := rlResult.2 })

/-- Run a sequence of enrichment requests for one identity at the given
times, threading the profiler state; the API-key configuration, the
cache-store availability and the service behavior are held fixed across the
sequence. -/
def runRequests (key : Option String) (store : Bool) (svc : SvcOutcome)
    (fp cb : Option String) :
    List Nat → ProfilerState → List ProfileResult × ProfilerState
  | [], st => ([], st)
  | t :: ts, st =>
      let step := generateAIProfile ⟨key, store, svc, t⟩ st fp cb
      let rest := runRequests key store svc fp cb ts step.2
      (step.1 :: rest.1, rest.2)

/-! ## Shared visitor replication (`src/server/shared-visitors.ts`) -/

/-- Event types published on the shared channel (`shared-visitors.ts:18`). -/
inductive VisitorEventType where
  | joined
  | left
  | updated
  deriving DecidableEq, Repr

/-- A `VisitorEvent` as published on the shared channel
(`shared-visitors.ts:20-24`). -/
structure VisitorEvent where
  type : VisitorEventType
  visitor : VisitorInfo
  instanceId : String
  deriving DecidableEq, Repr

/-- Value of `VISITORS_KEY` (`shared-visitors.ts:10`). -/
def VISITORS_KEY : String := "yourinfo:visitors"

/-- Value of `VISITOR_CHANNEL` (`shared-visitors.ts:11`). -/
def VISITOR_CHANNEL : String := "yourinfo:visitor_events"

/-- Value of `VISITOR_TTL` (`shared-visitors.ts:12`), in seconds. -/
def VISITOR_TTL : Nat := 300

/-- Redis commands issued by the replicator; the hash value keeps the
visitor record itself (its JSON serialization is a representation
detail). -/
inductive RedisCmd where
  | hSet (key field : String) (value : VisitorInfo)
  | expire (key : String) (ttl : Nat)
  | hDel (key field : String)
  | publish (channel : String) (event : VisitorEvent)
  deriving DecidableEq, Repr

/-- Embedding of `publishVisitorJoined` (`shared-visitors.ts:82-100`) as the
list of Redis commands it issues: nothing when disconnected, otherwise
`hSet`, `expire` with `VISITOR_TTL`, then the `joined` publication. -/
def publishVisitorJoined (connected : Bool) (instanceId : String)
    (visitor : VisitorInfo) : List RedisCmd :=
  if connected then
    [.hSet VISITORS_KEY visitor.id visitor,
     .expire VISITORS_KEY VISITOR_TTL,
     .publish VISITOR_CHANNEL ⟨.joined, visitor, instanceId⟩]
  else []

/-- Embedding of `publishVisitorLeft` (`shared-visitors.ts:105-122`):
`hDel`, then the `left` publication. -/
def publishVisitorLeft (connected : Bool) (instanceId : String)
    (visitor : VisitorInfo) : List RedisCmd :=
  if connected then
    [.hDel VISITORS_KEY visitor.id,
     .publish VISITOR_CHANNEL ⟨.left, visitor, instanceId⟩]
  else []

/-- Embedding of `publishVisitorUpdated` (`shared-visitors.ts:127-144`):
`hSet`, then the `updated` publication — there is no `expire` call in this
function. -/
def publishVisitorUpdated (connected : Bool) (instanceId : String)
    (visitor : VisitorInfo) : List RedisCmd :=
  if connected then
    [.hSet VISITORS_KEY visitor.id visitor,
     .publish VISITOR_CHANNEL ⟨.updated, visitor, instanceId⟩]
  else []

/-- Handling of one message on the shared channel by the subscription
registered at `shared-visitors.ts:51-61`: a JSON parse failure is caught
and delivers nothing; otherwise every registered callback (identified here
by name) is invoked with the event unless the event's origin instance
equals this instance's own id. Returns the callback invocations
performed. -/
def onChannelMessage (myInstanceId : String) (eventCallbacks : List String)
    (parsed : Option VisitorEvent) : List (String × VisitorEvent) :=
  match parsed with
  | none => []
  | some event =>
      if event.instanceId ≠ myInstanceId then
        eventCallbacks.map fun cb => (cb, event)
      else []

/-! ## Session registries and websocket handlers (`src/server/index.ts`) -/

/-- A JS `Map<string, α>`, modelled by its lookup behavior. -/
def StrMap (α : Type) : Type := String → Option α

/-- The empty map. -/
def StrMap.empty {α : Type} : StrMap α := fun _ => none

/-- JS `Map.prototype.get`. -/
def StrMap.get {α : Type} (m : StrMap α) (k : String) : Option α := m k

/-- JS `Map.prototype.set`. -/
def StrMap.set {α : Type} (m : StrMap α) (k : String) (v : α) : StrMap α :=
  fun q => if q = k then some v else m q

/-- JS `Map.prototype.delete`. -/
def StrMap.del {α : Type} (m : StrMap α) (k : String) : StrMap α :=
  fun q => if q = k then none else m q

/-- The three module-level registries of `index.ts:34-41`; a websocket
connection is represented by the presence of its key. -/
structure SessionState where
  localVisitors : StrMap VisitorInfo
  allVisitors : StrMap VisitorInfo
  connections : StrMap Unit

/-- Effects the close handler emits: the replicated `left` publication and
the local redacted broadcast (`index.ts:406-414`). -/
inductive CloseEffect where
  | publishLeft (v : VisitorInfo)
  | broadcastLeft (v : VisitorInfo)
  deriving DecidableEq, Repr

/-- Embedding of the websocket `close` handler
(`src/server/index.ts:397-419`): `visitorId` is the id attached to the
socket at open (`none` when open never attached one). All three registries
drop the id; the `left` publication and broadcast happen only when the
visitor was still locally registered. -/
def closeHandler (st : SessionState) (visitorId : Option String) :
    SessionState × List CloseEffect :=
  match visitorId with
  | none => (st, [])
  | some id =>
      let visitor := st.localVisitors.get id
      let st' : SessionState :=
        ⟨st.localVisitors.del id, st.allVisitors.del id, st.connections.del id⟩
      match visitor with
      | some v => (st', [.publishLeft v, .broadcastLeft (redactVisitorInfo v)])
      | none => (st', [])

/-- Registry effects of the websocket `open` handler
(`src/server/index.ts:298-352`): the freshly built record is stored in
`localVisitors`, `allVisitors` and `connections` under the generated id. -/
def openHandler (st : SessionState) (id : String) (server : ServerInfo)
    (connectedAt : Nat) : SessionState :=
  let visitor : VisitorInfo := ⟨id, server, none, connectedAt⟩
  ⟨st.localVisitors.set id visitor, st.allVisitors.set id visitor,
   st.connections.set id ()⟩

/-- Registry effects of the `client_info` branch of the websocket message
handler (`src/server/index.ts:359-391`): if the visitor is locally
registered, its `client` field is assigned the payload's `clientInfo` and
the record is re-stored in `localVisitors` and `allVisitors`; otherwise
nothing changes. -/
def clientInfoHandler (st : SessionState) (visitorId : String)
    (clientInfo : ClientInfo) : SessionState :=
  match st.localVisitors.get visitorId with
  | none => st
  | some visitor =>
      let visitor' := { visitor with client := some clientInfo }
      { st with
        localVisitors := st.localVisitors.set visitorId visitor'
        allVisitors := st.allVisitors.set visitorId visitor' }

/-- Registry effects of the `onVisitorEvent` callback registered at
`index.ts:49-70`: remote `joined`/`updated` events upsert into
`allVisitors`, remote `left` events delete from it; the local registries
are untouched. -/
def remoteEventHandler (st : SessionState) (e : VisitorEvent) : SessionState :=
  match e.type with
  | .joined => { st with allVisitors := st.allVisitors.set e.visitor.id e.visitor }
  | .left => { st with allVisitors := st.allVisitors.del e.visitor.id }
  | .updated => { st with allVisitors := st.allVisitors.set e.visitor.id e.visitor }

/-- One step of the per-instance session state machine: a websocket open,
an incoming `client_info` message, a close, or a remote event delivered by
the replicator. -/
inductive SessionStep where
  | wsOpen (id : String) (server : ServerInfo) (connectedAt : Nat)
  | wsMessage (visitorId : String) (clientInfo : ClientInfo)
  | wsClose (visitorId : Option String)
  | remote (e : VisitorEvent)

/-- Apply one step to the registries. -/
def applyStep (st : SessionState) : SessionStep → SessionState
  | .wsOpen id server t => openHandler st id server t
  | .wsMessage id ci => clientInfoHandler st id ci
  | .wsClose id => (closeHandler st id).1
  | .remote e => remoteEventHandler st e

/-- The registry-consistency invariant: `connections` and `localVisitors`
hold exactly the same ids, all of which appear in `allVisitors`. -/
def RegistryInv (st : SessionState) : Prop :=
  (∀ k, (st.connections.get k).isSome ↔ (st.localVisitors.get k).isSome)
  ∧ (∀ k, (st.localVisitors.get k).isSome → (st.allVisitors.get k).isSome)

/-- Side condition on steps: remote events never carry the id of a locally
connected visitor. -/
def stepOk (st : SessionState) : SessionStep → Prop
  | .remote e => st.localVisitors.get e.visitor.id = none
  | _ => True

/-! ## Concrete demonstration values -/

/-- A concrete visitor record used in counterexamples and witnesses. -/
def vDemo : VisitorInfo :=
  ⟨"v1", ⟨"1.2.3.4", none, "UA", "en", "Direct", []⟩, none, 0⟩

/-- A concrete remote `left` event originating elsewhere. -/
def eDemoLeft : VisitorEvent := ⟨.left, vDemo, "other"⟩

/-- A client-info bundle that knows the browser name. -/
def clientOld : ClientInfo := { fingerprintId := some "fp", browserName := some "Firefox" }

/-- A later client-info bundle that no longer reports the browser name. -/
def clientNew : ClientInfo := { fingerprintId := some "fp" }

/-- Registries holding one local visitor `v1` that already reported
`clientOld`. -/
def stDemo : SessionState :=
  ⟨StrMap.empty.set "v1" { vDemo with client := some clientOld },
   StrMap.empty.set "v1" { vDemo with client := some clientOld },
   StrMap.empty.set "v1" ()⟩

/-- Empty registries. -/
def stEmpty : SessionState := ⟨StrMap.empty, StrMap.empty, StrMap.empty⟩

/-! ## Helper lemmas -/

theorem jsRound_intCast (n : ℤ) : jsRound (n : ℚ) = n := by
  unfold jsRound
  rw [Int.floor_eq_iff]
  constructor
  · linarith
  · norm_num

theorem abs_sub_jsRound_le (q : ℚ) : |q - (jsRound q : ℚ)| ≤ 1/2 := by
  unfold jsRound
  rw [abs_sub_le_iff]
  have h1 : (⌊q + 1/2⌋ : ℚ) ≤ q + 1/2 := Int.floor_le _
  have h2 : q + 1/2 < (⌊q + 1/2⌋ : ℚ) + 1 := Int.lt_floor_add_one _
  constructor <;> linarith

theorem StrMap.get_del_self {α : Type} (m : StrMap α) (k : String) :
    (m.del k).get k = none := by
  simp [StrMap.del, StrMap.get]

theorem StrMap.get_del_ne {α : Type} (m : StrMap α) (k q : String) (h : q ≠ k) :
    (m.del k).get q = m.get q := by
  simp [StrMap.del, StrMap.get, h]

theorem StrMap.del_del {α : Type} (m : StrMap α) (k : String) :
    (m.del k).del k = m.del k := by
  funext q
  by_cases h : q = k <;> simp [StrMap.del, h]

theorem closeHandler_fst_eq (st : SessionState) (id : String) :
    (closeHandler st (some id)).1
      = ⟨st.localVisitors.del id, st.allVisitors.del id, st.connections.del id⟩ := by
  cases hv : st.localVisitors.get id <;> simp [closeHandler, hv]

/-! ## Claim theorems -/

/-- C1. For every visitor record `r` and viewer id `vid`:
`redactVisitorsExcept` maps a record whose id equals the viewer's to itself
and any other record to `redactVisitorInfo r`, which masks `server.ip` to a
fixed placeholder, masks `geo.city/isp/org`, rounds `geo.lat/lng` to the
nearest whole number (a null geo stays null) and leaves every other field
(id, connectedAt, client, the remaining server and geo fields) unchanged. -/
theorem redaction_per_field_spec (r : VisitorInfo) (vid : String) :
    (redactVisitorsExcept [r] vid = if r.id = vid then [r] else [redactVisitorInfo r])
    ∧ (r.id ≠ vid →
        (redactVisitorInfo r).server.ip = ipMask
        ∧ (r.server.geo = none → (redactVisitorInfo r).server.geo = none)
        ∧ (∀ g, r.server.geo = some g →
            (redactVisitorInfo r).server.geo =
              some { g with
                city := fieldMask
                isp := fieldMask
                org := fieldMask
                lat := (jsRound g.lat : ℚ)
                lng := (jsRound g.lng : ℚ) }
            ∧ (∃ n : ℤ, ((redactVisitorInfo r).server.geo.map GeoLocation.lat) = some (n : ℚ)
                  ∧ |g.lat - (n : ℚ)| ≤ 1/2)
            ∧ (∃ n : ℤ, ((redactVisitorInfo r).server.geo.map GeoLocation.lng) = some (n : ℚ)
                  ∧ |g.lng - (n : ℚ)| ≤ 1/2))
        ∧ (redactVisitorInfo r).id = r.id
        ∧ (redactVisitorInfo r).connectedAt = r.connectedAt
        ∧ (redactVisitorInfo r).client = r.client
        ∧ (redactVisitorInfo r).server.userAgent = r.server.userAgent
        ∧ (redactVisitorInfo r).server.acceptLanguage = r.server.acceptLanguage
        ∧ (redactVisitorInfo r).server.referer = r.server.referer
        ∧ (redactVisitorInfo r).server.headers = r.server.headers) := by
  refine ⟨?_, fun _ => ?_⟩
  · by_cases h : r.id = vid <;> simp [redactVisitorsExcept, h]
  · refine ⟨rfl, ?_, ?_, rfl, rfl, rfl, rfl, rfl, rfl, rfl⟩
    · intro h; simp [redactVisitorInfo, h]
    · intro g hg
      refine ⟨by simp [redactVisitorInfo, hg], ?_, ?_⟩
      · exact ⟨jsRound g.lat, by simp [redactVisitorInfo, hg], abs_sub_jsRound_le _⟩
      · exact ⟨jsRound g.lng, by simp [redactVisitorInfo, hg], abs_sub_jsRound_le _⟩

/-- Witness for C1 at a concrete record and viewer id. -/
theorem redaction_per_field_spec_witness :
    let g : GeoLocation :=
      ⟨(37:ℚ)/10, -(22:ℚ)/10, "Rome", "Lazio", "Italy", "IT", "Europe/Rome", "ispX", "orgX", "asX"⟩
    let r : VisitorInfo :=
      ⟨"v1", ⟨"1.2.3.4", some g, "UA", "en", "Direct", []⟩, none, 100⟩
    ("v1" : String) ≠ "v2" ∧
      (redactVisitorInfo r).server.ip = ipMask ∧
      redactVisitorsExcept [r] "v2" = [redactVisitorInfo r] := by
  intro g r
  refine ⟨by decide, ?_, ?_⟩
  · exact (redaction_per_field_spec r "v2").2 (by decide) |>.1
  · have h := (redaction_per_field_spec r "v2").1
    simpa using h

/-- C9. Redaction is idempotent: redacting an already-redacted record is a
no-op (masking a mask is the mask, rounding an integer is itself). -/
theorem redactVisitorInfo_idem (r : VisitorInfo) :
    redactVisitorInfo (redactVisitorInfo r) = redactVisitorInfo r := by
  unfold redactVisitorInfo
  cases hg : r.server.geo with
  | none => simp
  | some g => simp [jsRound_intCast]

/-- C2 counterexample: a concrete cache hit. The cache holds a profile for
the identity, `generateAIProfile` returns exactly that profile — but its
source tag is the literal `"cache"` (`ai-profiler.ts:591`), not `"cached"`
as the claim states. -/
theorem cache_hit_tag_counterexample :
    getCachedProfile ⟨some "k", true, .content none, 0⟩
        [(getCacheKey "f" "c", { aiGenerated := true })] (getCacheKey "f" "c")
      = some { aiGenerated := true }
    ∧ (generateAIProfile ⟨some "k", true, .content none, 0⟩
        ⟨[(getCacheKey "f" "c", { aiGenerated := true })], []⟩
        (some "f") (some "c")).1.profile = some { aiGenerated := true }
    ∧ (generateAIProfile ⟨some "k", true, .content none, 0⟩
        ⟨[(getCacheKey "f" "c", { aiGenerated := true })], []⟩
        (some "f") (some "c")).1.source ≠ "cached" := by
  refine ⟨rfl, rfl, by decide⟩

/-- C2 (amended: the cache-hit source tag is the code's `"cache"`, not
`"cached"`). Lookup order of `generateAIProfile`: a cache hit returns the
cached profile with source `"cache"`; a cache miss with no API key returns a
null profile with source `"fallback"`; a cache miss with a key but an
exhausted rate-limit window for the identity returns a null profile with
source `"fallback"`. -/
theorem generateAIProfile_lookup_order (env : ProfilerEnv) (st : ProfilerState)
    (fp cb : Option String) :
    (∀ p, getCachedProfile env st.cache
        (getCacheKey (fp.getD "unknown") (cb.getD "unknown")) = some p →
        (generateAIProfile env st fp cb).1 = { profile := some p, source := "cache" })
    ∧ (getCachedProfile env st.cache
        (getCacheKey (fp.getD "unknown") (cb.getD "unknown")) = none →
        env.grokApiKey = none →
        (generateAIProfile env st fp cb).1 =
          { profile := none, source := "fallback", error := some "AI not configured" })
    ∧ (getCachedProfile env st.cache
        (getCacheKey (fp.getD "unknown") (cb.getD "unknown")) = none →
        env.grokApiKey.isSome →
        (checkRateLimit env.now st.rl
          (fp.getD "unknown" ++ ":" ++ cb.getD "unknown")).1 = false →
        (generateAIProfile env st fp cb).1 =
          { profile := none, source := "fallback", error := some "Rate limited" }) := by
  refine ⟨?_, ?_, ?_⟩
  · intro p hp
    simp [generateAIProfile, hp]
  · intro hc hk
    simp [generateAIProfile, hc, hk]
  · intro hc hk hrl
    obtain ⟨k, hk⟩ := Option.isSome_iff_exists.mp hk
    simp [generateAIProfile, hc, hk, hrl]

/-- Witness for C2's amended theorem: each of the three branches at a
concrete environment. -/
theorem generateAIProfile_lookup_order_witness :
    (getCachedProfile ⟨some "k", true, .content none, 0⟩
        [(getCacheKey "f" "c", { aiGenerated := true })] (getCacheKey "f" "c")
      = some { aiGenerated := true }
    ∧ (generateAIProfile ⟨some "k", true, .content none, 0⟩
        ⟨[(getCacheKey "f" "c", { aiGenerated := true })], []⟩ (some "f") (some "c")).1
      = { profile := some { aiGenerated := true }, source := "cache" })
    ∧ ((generateAIProfile ⟨none, true, .content none, 0⟩ ⟨[], []⟩ (some "f") (some "c")).1
      = { profile := none, source := "fallback", error := some "AI not configured" })
    ∧ ((generateAIProfile ⟨some "k", true, .content none, 5⟩
        ⟨[], [("f:c", ⟨2, 100⟩)]⟩ (some "f") (some "c")).1
      = { profile := none, source := "fallback", error := some "Rate limited" }) := by
  refine ⟨⟨by decide, ?_⟩, ?_, ?_⟩
  · exact (generateAIProfile_lookup_order ⟨some "k", true, .content none, 0⟩
      ⟨[(getCacheKey "f" "c", { aiGenerated := true })], []⟩ (some "f") (some "c")).1
      { aiGenerated := true } (by decide)
  · exact (generateAIProfile_lookup_order ⟨none, true, .content none, 0⟩
      ⟨[], []⟩ (some "f") (some "c")).2.1 (by decide) rfl
  · exact (generateAIProfile_lookup_order ⟨some "k", true, .content none, 5⟩
      ⟨[], [("f:c", ⟨2, 100⟩)]⟩ (some "f") (some "c")).2.2 (by decide) (by decide) (by decide)

/-- C6. `generateAIProfile` never raises: for every input, every cache-store
behavior and every service behavior (network failure, non-success status,
empty body, parse failure), the caller receives a well-formed
`{profile, source, error?}` result whose source is one of the three literal
tags; every `"fallback"` result carries a null profile and an error string;
and under any failing service behavior the result is either served from
cache or is such a fallback. -/
theorem generateAIProfile_never_raises (env : ProfilerEnv) (st : ProfilerState)
    (fp cb : Option String) :
    ((generateAIProfile env st fp cb).1.source = "ai"
      ∨ (generateAIProfile env st fp cb).1.source = "cache"
      ∨ (generateAIProfile env st fp cb).1.source = "fallback")
    ∧ ((generateAIProfile env st fp cb).1.source = "fallback" →
        (generateAIProfile env st fp cb).1.profile = none
        ∧ ((generateAIProfile env st fp cb).1.error).isSome = true)
    ∧ ((generateAIProfile env st fp cb).1.source = "ai" →
        ((generateAIProfile env st fp cb).1.profile).isSome = true)
    ∧ (env.svc.isFailure = true →
        (generateAIProfile env st fp cb).1.source = "cache"
        ∨ ((generateAIProfile env st fp cb).1.source = "fallback"
            ∧ (generateAIProfile env st fp cb).1.profile = none)) := by
  obtain ⟨key, store, svc, now⟩ := env
  unfold generateAIProfile
  cases hc : getCachedProfile ⟨key, store, svc, now⟩ st.cache
      (getCacheKey (fp.getD "unknown") (cb.getD "unknown")) with
  | some p => simp [hc]
  | none =>
    cases key with
    | none => simp [hc]
    | some k =>
      cases hrl : (checkRateLimit now st.rl
          (fp.getD "unknown" ++ ":" ++ cb.getD "unknown")).1 with
      | false => simp [hc, hrl]
      | true =>
        cases svc with
        | networkError msg => simp [hc, hrl, grokTryBlock, SvcOutcome.isFailure]
        | httpError status body => simp [hc, hrl, grokTryBlock, SvcOutcome.isFailure]
        | emptyBody => simp [hc, hrl, grokTryBlock, SvcOutcome.isFailure]
        | content parsed =>
          cases parsed with
          | none => simp [hc, hrl, grokTryBlock, SvcOutcome.isFailure]
          | some p => simp [hc, hrl, grokTryBlock, SvcOutcome.isFailure]

/-- Witness for C6 at a concrete throwing service call. -/
theorem generateAIProfile_never_raises_witness :
    (SvcOutcome.networkError "boom").isFailure = true
    ∧ ((generateAIProfile ⟨some "k", false, .networkError "boom", 0⟩ ⟨[], []⟩
          none none).1.source = "cache"
        ∨ ((generateAIProfile ⟨some "k", false, .networkError "boom", 0⟩ ⟨[], []⟩
              none none).1.source = "fallback"
            ∧ (generateAIProfile ⟨some "k", false, .networkError "boom", 0⟩ ⟨[], []⟩
                none none).1.profile = none)) :=
  ⟨by decide,
    (generateAIProfile_never_raises ⟨some "k", false, .networkError "boom", 0⟩
      ⟨[], []⟩ none none).2.2.2 (by decide)⟩

/-- C5 counterexample: with a reachable cache store and a succeeding
service, three requests within one window for a fresh identity yield the
sources `ai`, `cache`, `cache` — zero fallbacks, not exactly one: the first
success is cached, so the later requests are cache hits and never reach the
rate limiter. -/
theorem rate_limit_counts_counterexample :
    ((runRequests (some "k") true (.content (some {})) (some "f") (some "c")
        [0, 1, 2] ⟨[], []⟩).1.map ProfileResult.source = ["ai", "cache", "cache"])
    ∧ ((runRequests (some "k") true (.content (some {})) (some "f") (some "c")
        [0, 1, 2] ⟨[], []⟩).1.countP (fun r => r.source == "fallback") = 0) := by
  constructor
  · decide
  · decide

/-- C5 (amended: the exact two-admitted/one-rejected split holds for
requests that actually reach the rate limiter, i.e. that each miss the
cache — with a working cache the second and third requests are cache hits
and no rate-limit fallback occurs, as `rate_limit_counts_counterexample`
shows). With the cache store unavailable, the service configured and
succeeding, and a fresh identity, three requests within one 60s window
yield exactly two non-fallback (`"ai"`) outcomes and one rate-limited
`"fallback"`; and once the window's reset time has strictly passed, the
next request is admitted with the identity's count restarted at 1. -/
theorem rate_limit_window_amended (st : ProfilerState) (k fp cb : String)
    (p : UserProfile) (t1 t2 t3 : Nat)
    (hfresh : st.rl.lookup (fp ++ ":" ++ cb) = none)
    (h2 : t2 ≤ t1 + RATE_LIMIT_WINDOW)
    (h3 : t3 ≤ t1 + RATE_LIMIT_WINDOW) :
    ((runRequests (some k) false (.content (some p)) (some fp) (some cb)
        [t1, t2, t3] st).1.map ProfileResult.source = ["ai", "ai", "fallback"])
    ∧ ((runRequests (some k) false (.content (some p)) (some fp) (some cb)
        [t1, t2, t3] st).1.countP (fun r => !(r.source == "fallback")) = 2)
    ∧ ((runRequests (some k) false (.content (some p)) (some fp) (some cb)
        [t1, t2, t3] st).1.countP (fun r => r.source == "fallback") = 1)
    ∧ (∀ t4, t1 + RATE_LIMIT_WINDOW < t4 →
        checkRateLimit t4
            (runRequests (some k) false (.content (some p)) (some fp) (some cb)
              [t1, t2, t3] st).2.rl (fp ++ ":" ++ cb)
          = (true, rlSet (runRequests (some k) false (.content (some p)) (some fp) (some cb)
              [t1, t2, t3] st).2.rl (fp ++ ":" ++ cb) ⟨1, t4 + RATE_LIMIT_WINDOW⟩)) := by
  have hn2 : ¬ (t1 + RATE_LIMIT_WINDOW < t2) := by omega
  have hn3 : ¬ (t1 + RATE_LIMIT_WINDOW < t3) := by omega
  have e1 : generateAIProfile ⟨some k, false, .content (some p), t1⟩ st (some fp) (some cb)
      = ({ profile := some { p with aiGenerated := true }, source := "ai", error := none },
         ⟨st.cache, (fp ++ ":" ++ cb, ⟨1, t1 + RATE_LIMIT_WINDOW⟩) :: st.rl⟩) := by
    simp [generateAIProfile, getCachedProfile, checkRateLimit, hfresh, grokTryBlock,
      cacheProfile, rlSet]
  have e2 : generateAIProfile ⟨some k, false, .content (some p), t2⟩
        ⟨st.cache, (fp ++ ":" ++ cb, ⟨1, t1 + RATE_LIMIT_WINDOW⟩) :: st.rl⟩ (some fp) (some cb)
      = ({ profile := some { p with aiGenerated := true }, source := "ai", error := none },
         ⟨st.cache, (fp ++ ":" ++ cb, ⟨2, t1 + RATE_LIMIT_WINDOW⟩)
            :: (fp ++ ":" ++ cb, ⟨1, t1 + RATE_LIMIT_WINDOW⟩) :: st.rl⟩) := by
    simp [generateAIProfile, getCachedProfile, checkRateLimit, List.lookup, grokTryBlock,
      cacheProfile, rlSet, RATE_LIMIT_MAX, hn2]
  have e3 : generateAIProfile ⟨some k, false, .content (some p), t3⟩
        ⟨st.cache, (fp ++ ":" ++ cb, ⟨2, t1 + RATE_LIMIT_WINDOW⟩)
          :: (fp ++ ":" ++ cb, ⟨1, t1 + RATE_LIMIT_WINDOW⟩) :: st.rl⟩ (some fp) (some cb)
      = ({ profile := none, source := "fallback", error := some "Rate limited" },
         ⟨st.cache, (fp ++ ":" ++ cb, ⟨2, t1 + RATE_LIMIT_WINDOW⟩)
            :: (fp ++ ":" ++ cb, ⟨1, t1 + RATE_LIMIT_WINDOW⟩) :: st.rl⟩) := by
    simp [generateAIProfile, getCachedProfile, checkRateLimit, List.lookup, grokTryBlock,
      cacheProfile, rlSet, RATE_LIMIT_MAX, hn3]
  have hrun : runRequests (some k) false (.content (some p)) (some fp) (some cb)
        [t1, t2, t3] st
      = ([{ profile := some { p with aiGenerated := true }, source := "ai", error := none },
          { profile := some { p with aiGenerated := true }, source := "ai", error := none },
          { profile := none, source := "fallback", error := some "Rate limited" }],
         ⟨st.cache, (fp ++ ":" ++ cb, ⟨2, t1 + RATE_LIMIT_WINDOW⟩)
            :: (fp ++ ":" ++ cb, ⟨1, t1 + RATE_LIMIT_WINDOW⟩) :: st.rl⟩) := by
    simp [runRequests, e1, e2, e3]
  refine ⟨?_, ?_, ?_, ?_⟩
  · rw [hrun]; rfl
  · rw [hrun]; rfl
  · rw [hrun]; rfl
  · intro t4 ht4
    rw [hrun]
    simp [checkRateLimit, List.lookup, rlSet, ht4]

/-- Witness for C5's amended theorem at a concrete run. -/
theorem rate_limit_window_amended_witness :
    (([] : RlMap).lookup ("f" ++ ":" ++ "c") = none)
    ∧ ((runRequests (some "k") false (.content (some {})) (some "f") (some "c")
        [0, 1, 2] ⟨[], []⟩).1.map ProfileResult.source = ["ai", "ai", "fallback"])
    ∧ ((checkRateLimit 70000
        (runRequests (some "k") false (.content (some {})) (some "f") (some "c")
          [0, 1, 2] ⟨[], []⟩).2.rl ("f" ++ ":" ++ "c")).1 = true) := by
  refine ⟨rfl, ?_, ?_⟩
  · exact (rate_limit_window_amended ⟨[], []⟩ "k" "f" "c" {} 0 1 2 rfl
      (by norm_num [RATE_LIMIT_WINDOW]) (by norm_num [RATE_LIMIT_WINDOW])).1
  · have h := (rate_limit_window_amended ⟨[], []⟩ "k" "f" "c" {} 0 1 2 rfl
      (by norm_num [RATE_LIMIT_WINDOW]) (by norm_num [RATE_LIMIT_WINDOW])).2.2.2
      70000 (by norm_num [RATE_LIMIT_WINDOW])
    rw [h]

/-- C4 counterexample: `publishVisitorJoined` renews the directory TTL but
`publishVisitorUpdated` issues no `expire` command at all
(`shared-visitors.ts:127-144` has only `hSet` and `publish`), so the claim
that both renew the expiry window is false. -/
theorem publishVisitorUpdated_no_expire_counterexample :
    RedisCmd.expire VISITORS_KEY VISITOR_TTL ∈ publishVisitorJoined true "i1" vDemo
    ∧ RedisCmd.expire VISITORS_KEY VISITOR_TTL ∉ publishVisitorUpdated true "i1" vDemo := by
  constructor
  · decide
  · decide

/-- C4 (amended: only `publishVisitorJoined` renews the directory's expiry;
`publishVisitorUpdated` writes the record and publishes without renewing
it). When the shared store is connected, `publishVisitorJoined` writes the
full record under the visitor's id, renews the directory's 300-second
expiry window, then publishes a `{type, visitor, instanceId}` event on the
shared channel; `publishVisitorUpdated` writes the record and publishes the
event, and issues no `expire` command. -/
theorem publish_commands_spec (instanceId : String) (v : VisitorInfo) :
    publishVisitorJoined true instanceId v
      = [.hSet VISITORS_KEY v.id v, .expire VISITORS_KEY VISITOR_TTL,
         .publish VISITOR_CHANNEL ⟨.joined, v, instanceId⟩]
    ∧ publishVisitorUpdated true instanceId v
      = [.hSet VISITORS_KEY v.id v, .publish VISITOR_CHANNEL ⟨.updated, v, instanceId⟩]
    ∧ (∀ c ∈ publishVisitorUpdated true instanceId v, ∀ key ttl, c ≠ RedisCmd.expire key ttl) := by
  refine ⟨rfl, rfl, ?_⟩
  intro c hc key ttl
  simp only [publishVisitorUpdated, if_pos trivial, List.mem_cons, List.mem_singleton,
    List.not_mem_nil] at hc
  rcases hc with h | h | h
  · subst h; intro hne; cases hne
  · subst h; intro hne; cases hne
  · cases h

/-- Witness for C4's amended theorem at a concrete visitor. -/
theorem publish_commands_spec_witness :
    publishVisitorJoined true "i1" vDemo
      = [.hSet VISITORS_KEY "v1" vDemo, .expire VISITORS_KEY VISITOR_TTL,
         .publish VISITOR_CHANNEL ⟨.joined, vDemo, "i1"⟩]
    ∧ RedisCmd.hSet VISITORS_KEY "v1" vDemo ≠ RedisCmd.expire VISITORS_KEY 300 := by
  constructor
  · exact (publish_commands_spec "i1" vDemo).1
  · exact (publish_commands_spec "i1" vDemo).2.2 (RedisCmd.hSet VISITORS_KEY "v1" vDemo)
      (by decide) VISITORS_KEY 300

/-- C8. The subscription loop invokes each registered callback exactly when
the event's origin instance id differs from this instance's own id; an
event originating from this instance is delivered to no callback, and an
unparseable message delivers nothing. -/
theorem subscription_self_suppression (myId : String) (cbs : List String)
    (e : VisitorEvent) :
    (∀ cb ∈ cbs, ((cb, e) ∈ onChannelMessage myId cbs (some e) ↔ e.instanceId ≠ myId))
    ∧ (e.instanceId = myId → onChannelMessage myId cbs (some e) = [])
    ∧ onChannelMessage myId cbs none = [] := by
  refine ⟨?_, ?_, rfl⟩
  · intro cb hcb
    by_cases h : e.instanceId = myId <;> simp [onChannelMessage, h, hcb]
  · intro h
    simp [onChannelMessage, h]

/-- Witness for C8 at a concrete callback and foreign-origin event. -/
theorem subscription_self_suppression_witness :
    ("cb1" : String) ∈ ["cb1"]
    ∧ (("cb1", eDemoLeft) ∈ onChannelMessage "me" ["cb1"] (some eDemoLeft)
        ↔ eDemoLeft.instanceId ≠ "me") :=
  ⟨by decide, (subscription_self_suppression "me" ["cb1"] eDemoLeft).1 "cb1" (by decide)⟩

/-- C3 counterexample: a `client_info` payload that no longer reports
`browserName` overwrites a record that previously knew it — the handler
assigns `visitor.client = payload.clientInfo` wholesale (`index.ts:364`),
so the previously non-null field becomes null. -/
theorem client_info_merge_counterexample :
    ((stDemo.localVisitors.get "v1").map fun v => v.client.map ClientInfo.browserName)
      = some (some (some "Firefox"))
    ∧ (((clientInfoHandler stDemo "v1" clientNew).localVisitors.get "v1").map
        fun v => v.client.map ClientInfo.browserName) = some (some none) := by
  constructor
  · rfl
  · rfl

/-- C3 (amended: `client_info` replaces rather than merges — the new
payload overwrites `visitor.client` wholesale, so fields the new payload
leaves null are dropped, as `client_info_merge_counterexample` shows). For
every locally registered visitor, handling `client_info` sets the record's
`client` to exactly the payload's bundle in both registries, leaving id,
server and connectedAt unchanged; for an unregistered id the state is
unchanged. -/
theorem client_info_replaces (st : SessionState) (visitorId : String)
    (ci : ClientInfo) :
    (∀ v, st.localVisitors.get visitorId = some v →
        (clientInfoHandler st visitorId ci).localVisitors.get visitorId
          = some { v with client := some ci }
        ∧ (clientInfoHandler st visitorId ci).allVisitors.get visitorId
          = some { v with client := some ci }
        ∧ (clientInfoHandler st visitorId ci).connections = st.connections)
    ∧ (st.localVisitors.get visitorId = none → clientInfoHandler st visitorId ci = st) := by
  constructor
  · intro v hv
    have hv' : st.localVisitors visitorId = some v := hv
    refine ⟨?_, ?_, ?_⟩ <;> simp [clientInfoHandler, hv', StrMap.get, StrMap.set]
  · intro h
    have h' : st.localVisitors visitorId = none := h
    simp [clientInfoHandler, h', StrMap.get]

/-- Witness for C3's amended theorem at the concrete registry `stDemo`. -/
theorem client_info_replaces_witness :
    stDemo.localVisitors.get "v1" = some { vDemo with client := some clientOld }
    ∧ (clientInfoHandler stDemo "v1" clientNew).localVisitors.get "v1"
      = some { vDemo with client := some clientNew } := by
  refine ⟨rfl, ?_⟩
  exact ((client_info_replaces stDemo "v1" clientNew).1
    { vDemo with client := some clientOld } rfl).1

/-- C7. The close handler is idempotent: a second run for the same
connection emits nothing and leaves all three registries exactly as the
first run left them, so across the two runs the `left` event is published
to the shared store at most once and broadcast to local peers at most
once. -/
theorem closeHandler_idempotent (st : SessionState) (visitorId : Option String) :
    closeHandler (closeHandler st visitorId).1 visitorId
      = ((closeHandler st visitorId).1, [])
    ∧ ((closeHandler st visitorId).2
        ++ (closeHandler (closeHandler st visitorId).1 visitorId).2).countP
        (fun e => match e with | .publishLeft _ => true | _ => false) ≤ 1
    ∧ ((closeHandler st visitorId).2
        ++ (closeHandler (closeHandler st visitorId).1 visitorId).2).countP
        (fun e => match e with | .broadcastLeft _ => true | _ => false) ≤ 1 := by
  cases visitorId with
  | none => exact ⟨rfl, by simp [closeHandler], by simp [closeHandler]⟩
  | some id =>
    have h1 : (closeHandler st (some id)).1
        = ⟨st.localVisitors.del id, st.allVisitors.del id, st.connections.del id⟩ :=
      closeHandler_fst_eq st id
    have h2 : closeHandler
        (⟨st.localVisitors.del id, st.allVisitors.del id, st.connections.del id⟩ : SessionState)
        (some id)
        = (⟨st.localVisitors.del id, st.allVisitors.del id, st.connections.del id⟩, []) := by
      simp [closeHandler, StrMap.get_del_self, StrMap.del_del]
    refine ⟨?_, ?_, ?_⟩
    · rw [h1, h2]
    · rw [h1, h2]
      cases hv : st.localVisitors.get id <;> simp [closeHandler, hv]
    · rw [h1, h2]
      cases hv : st.localVisitors.get id <;> simp [closeHandler, hv]

/-- C10. Every websocket handler (open, message, close) and every
remote-event callback preserves the registry-consistency invariant —
`connections` and `localVisitors` hold the same key set, contained in
`allVisitors`' key set — provided remote events never carry the id of a
locally connected visitor. -/
theorem registry_invariant_preserved (st : SessionState) (s : SessionStep)
    (hInv : RegistryInv st) (hok : stepOk st s) :
    RegistryInv (applyStep st s) := by
  obtain ⟨hcl, hla⟩ := hInv
  cases s with
  | wsOpen id server t =>
    constructor
    · intro q
      by_cases h : q = id
      · simp [applyStep, openHandler, StrMap.get, StrMap.set, h]
      · simp only [applyStep, openHandler, StrMap.get, StrMap.set, if_neg h]
        exact hcl q
    · intro q
      by_cases h : q = id
      · simp [applyStep, openHandler, StrMap.get, StrMap.set, h]
      · simp only [applyStep, openHandler, StrMap.get, StrMap.set, if_neg h]
        exact hla q
  | wsMessage id ci =>
    cases hv : st.localVisitors.get id with
    | none =>
      have hv' : st.localVisitors id = none := hv
      constructor
      · intro q; simp only [applyStep, clientInfoHandler, StrMap.get, hv']; exact hcl q
      · intro q; simp only [applyStep, clientInfoHandler, StrMap.get, hv']; exact hla q
    | some v =>
      have hv' : st.localVisitors id = some v := hv
      have hc : (st.connections.get id).isSome := by
        rw [hcl id, hv]; rfl
      constructor
      · intro q
        by_cases h : q = id
        · subst h
          simp only [applyStep, clientInfoHandler, StrMap.get, StrMap.set, hv', if_pos rfl]
          simpa [StrMap.get] using hc
        · simp only [applyStep, clientInfoHandler, StrMap.get, StrMap.set, hv', if_neg h]
          exact hcl q
      · intro q
        by_cases h : q = id
        · subst h
          simp [applyStep, clientInfoHandler, StrMap.get, StrMap.set, hv']
        · simp only [applyStep, clientInfoHandler, StrMap.get, StrMap.set, hv', if_neg h]
          exact hla q
  | wsClose oid =>
    cases oid with
    | none =>
      constructor
      · intro q; simp only [applyStep, closeHandler]; exact hcl q
      · intro q; simp only [applyStep, closeHandler]; exact hla q
    | some id =>
      constructor
      · intro q
        by_cases h : q = id
        · subst h
          simp [applyStep, closeHandler_fst_eq, StrMap.get_del_self]
        · simp only [applyStep, closeHandler_fst_eq, StrMap.get_del_ne _ _ _ h]
          exact hcl q
      · intro q
        by_cases h : q = id
        · subst h
          simp [applyStep, closeHandler_fst_eq, StrMap.get_del_self]
        · simp only [applyStep, closeHandler_fst_eq, StrMap.get_del_ne _ _ _ h]
          exact hla q
  | remote e =>
    have hid : st.localVisitors.get e.visitor.id = none := hok
    cases he : e.type with
    | joined =>
      constructor
      · intro q; simp only [applyStep, remoteEventHandler, he]; exact hcl q
      · intro q
        by_cases h : q = e.visitor.id
        · subst h; simp [remoteEventHandler, he, applyStep, StrMap.get, StrMap.set]
        · simp only [applyStep, remoteEventHandler, he, StrMap.get, StrMap.set, if_neg h]
          exact hla q
    | updated =>
      constructor
      · intro q; simp only [applyStep, remoteEventHandler, he]; exact hcl q
      · intro q
        by_cases h : q = e.visitor.id
        · subst h; simp [remoteEventHandler, he, applyStep, StrMap.get, StrMap.set]
        · simp only [applyStep, remoteEventHandler, he, StrMap.get, StrMap.set, if_neg h]
          exact hla q
    | left =>
      constructor
      · intro q; simp only [applyStep, remoteEventHandler, he]; exact hcl q
      · intro q
        by_cases h : q = e.visitor.id
        · subst h; simp [applyStep, remoteEventHandler, he, hid]
        · simp only [applyStep, remoteEventHandler, he, StrMap.get_del_ne _ _ _ h]
          exact hla q

/-- Witness for C10: the invariant holds for the empty registries and is
preserved across a concrete remote `left` event. -/
theorem registry_invariant_preserved_witness :
    RegistryInv stEmpty ∧ stepOk stEmpty (.remote eDemoLeft)
    ∧ RegistryInv (applyStep stEmpty (.remote eDemoLeft)) := by
  have hInv : RegistryInv stEmpty := by
    constructor <;> intro k <;> simp [stEmpty, StrMap.empty, StrMap.get]
  have hok : stepOk stEmpty (.remote eDemoLeft) := rfl
  exact ⟨hInv, hok, registry_invariant_preserved stEmpty (.remote eDemoLeft) hInv hok⟩

end YourInfo
